import Mathlib

/-!
Verification of the client-side streaming layer of the superego frontend:
a shallow embedding of `src/lib/api/sse.svelte.ts` (the Stream Run Engine)
and `src/lib/state/threads.svelte.ts` (the Thread Cache), together with
theorems settling the specification claims about them.

Modelling conventions:
- JavaScript objects holding optional fields become structures with
  `Option` fields; `undefined`/`null` is `none`.
- JavaScript string truthiness (`if (s)`) is `truthy : Option String → Bool`,
  false exactly on `none` and `some ""`.
- The `Record<string, T>` stores become association lists with
  spread-update semantics (`cacheSet` replaces the binding for a key).
- Console diagnostics become an explicit `List ConsoleLine` output of each
  handler; the Global Error Slot is an `Option String` field of `AppState`.
-/

namespace SuperegoSSE

/-- Message discriminator, mirroring the `type` field of the TS message union. -/
inductive MsgType
  | human
  | ai
  | tool
  | system
deriving DecidableEq, Repr

/-- One entry of an AI message's `tool_calls` array. -/
structure ToolCall where
  id : String
  name : String
  args : String
deriving DecidableEq, Repr

/-- A message as handled by the stream processor.  The TS objects are
dynamically shaped; fields that only some variants carry are `Option`s. -/
structure Message where
  type : MsgType
  content : String
  nodeId : Option String := none
  tool_calls : Option (List ToolCall) := none
  tool_call_id : Option String := none
  name : Option String := none
  is_error : Option Bool := none
deriving DecidableEq, Repr

/-- The run configuration is opaque to this layer (passed through unmodified). -/
structure RunConfig where
  payload : String
deriving DecidableEq, Repr

/-- `values` object of a history entry. -/
structure HistoryValues where
  messages : List Message
deriving DecidableEq, Repr

/-- A thread history snapshot (`HistoryEntry` in the TS source). -/
structure HistoryEntry where
  checkpoint_id : String
  thread_id : String
  values : HistoryValues
  runConfig : RunConfig
deriving DecidableEq, Repr

/-- Thread run status. -/
inductive ThreadStatus
  | idle
  | streaming
  | error
deriving DecidableEq, Repr

/-- One entry of the thread cache (`ThreadCacheData` in the TS source). -/
structure ThreadCacheData where
  history : Option HistoryEntry
  status : ThreadStatus
  error : Option String
deriving DecidableEq, Repr

/-- The thread cache: `Record<string, ThreadCacheData>` as an association list. -/
abbrev ThreadCache := List (String × ThreadCacheData)

/-- JavaScript truthiness of a nullable string: false on `null`/`undefined`
and on the empty string. -/
def truthy : Option String → Bool
  | none => false
  | some s => s ≠ ""

/-- `store[key]` lookup. -/
def cacheGet (c : ThreadCache) (k : String) : Option ThreadCacheData :=
  match c with
  | [] => none
  | (k', v) :: rest => if k' = k then some v else cacheGet rest k

/-- `{...store, [key]: v}`: replace the binding for `key` (or add it). -/
def cacheSet (c : ThreadCache) (k : String) (v : ThreadCacheData) : ThreadCache :=
  match c with
  | [] => [(k, v)]
  | (k', v') :: rest => if k' = k then (k', v) :: rest else (k', v') :: cacheSet rest k v

/-- A partial `ThreadCacheData` (the `updates` argument of `updateEntry`).
An outer `some` means the field is present in the partial object. -/
structure ThreadCachePatch where
  history : Option (Option HistoryEntry) := none
  status : Option ThreadStatus := none
  error : Option (Option String) := none
deriving DecidableEq, Repr

/-- `{...entry, ...updates}`: fields present in the patch win. -/
def applyPatch (e : ThreadCacheData) (p : ThreadCachePatch) : ThreadCacheData :=
  { history := p.history.getD e.history
    status := p.status.getD e.status
    error := p.error.getD e.error }

/-- The default entry `updateEntry` synthesizes for a missing thread. -/
def defaultEntry : ThreadCacheData :=
  { history := none, status := ThreadStatus.idle, error := none }

/-- `ThreadStateStore.setEntry`: full replace; a falsy thread id is rejected. -/
def setEntry (c : ThreadCache) (threadId : String) (entryData : ThreadCacheData) : ThreadCache :=
  if threadId = "" then c else cacheSet c threadId entryData

/-- `ThreadStateStore.updateEntry`: shallow-merge a partial into the existing
entry, or synthesize a default entry merged with the partial if missing. -/
def updateEntry (c : ThreadCache) (threadId : String) (updates : ThreadCachePatch) : ThreadCache :=
  if threadId = "" then c
  else
    match cacheGet c threadId with
    | some e => cacheSet c threadId (applyPatch e updates)
    | none => cacheSet c threadId (applyPatch defaultEntry updates)

/-- `ThreadStateStore.setError`. -/
def setError (c : ThreadCache) (threadId : String) (msg : String) : ThreadCache :=
  updateEntry c threadId { status := some ThreadStatus.error, error := some (some msg) }

/-- `ThreadStateStore.clearError`. -/
def clearError (c : ThreadCache) (threadId : String) : ThreadCache :=
  updateEntry c threadId { error := some none }

/-- A console diagnostic line, by level. -/
inductive ConsoleLine
  | warn (s : String)
  | err (s : String)
  | info (s : String)
deriving DecidableEq, Repr

/-- Replace the last element of a list (in-place mutation of
`messages.at(-1)` in the source); no effect on the empty list. -/
def updateLast (l : List Message) (f : Message → Message) : List Message :=
  match l with
  | [] => []
  | [m] => [f m]
  | m :: m' :: rest => m :: updateLast (m' :: rest) f

/-- Payload of a `chunk` event. -/
structure SSEChunkData where
  node : String
  content : String
deriving DecidableEq, Repr

/-- Payload of an `ai_tool_chunk` event. -/
structure SSEToolCallChunkData where
  node : String
  id : Option String := none
  name : Option String := none
  args : Option String := none
deriving DecidableEq, Repr

/-- Payload of a `tool_result` event. -/
structure SSEToolResultData where
  node : String
  content : Option String := none
  tool_call_id : Option String := none
  tool_name : Option String := none
  is_error : Option Bool := none
deriving DecidableEq, Repr

/-- A fresh AI message pushed by the chunk handlers. -/
def newAiMessage (node : String) (content : String) : Message :=
  { type := MsgType.ai, content := content, nodeId := some node, tool_calls := some [] }

/-- `handleChunk`: append streamed text to the AI message of the chunk's node,
starting a new AI message on a node boundary (or defensively after a non-AI
message of the same node).  Returns the updated history copy and the console
diagnostics emitted. -/
def handleChunk (historyEntry : HistoryEntry) (chunkData : SSEChunkData) :
    HistoryEntry × List ConsoleLine :=
  let ms0 := historyEntry.values.messages
  -- `messages.at(-1)?.nodeId !== chunkData.node`
  let ms1 :=
    if (ms0.getLast?.bind (·.nodeId)) ≠ some chunkData.node then
      ms0 ++ [newAiMessage chunkData.node ""]
    else ms0
  match ms1.getLast? with
  | none =>
      -- unreachable: ms1 is nonempty in every branch above
      ({ historyEntry with values := { messages := ms1 } }, [])
  | some lastMessage =>
      if lastMessage.type = MsgType.ai then
        ({ historyEntry with
            values :=
              { messages := updateLast ms1 (fun m => { m with content := m.content ++ chunkData.content }) } },
         [])
      else
        ({ historyEntry with
            values := { messages := ms1 ++ [newAiMessage chunkData.node chunkData.content] } },
         [ConsoleLine.warn "Received chunk after non-AI message from same node. Creating new AI message."])

/-- Append to the args of the last tool call of a list. -/
def appendToLastArgs (tcs : List ToolCall) (extra : String) : List ToolCall :=
  match tcs with
  | [] => []
  | [tc] => [{ tc with args := tc.args ++ extra }]
  | tc :: tc' :: rest => tc :: appendToLastArgs (tc' :: rest) extra

/-- `handleToolChunk`: ensure the last message is an AI message of the chunk's
node (pushing a fresh one otherwise), make sure its `tool_calls` array exists,
then either push a new tool call (when the event carries a truthy `id`) or
append `args` onto the last tool call (when it carries truthy `args` and a
tool call exists).  When neither applies the message is left as-is; the
source's diagnostic for an orphan continuation sits behind the
`tool_calls.length > 0` guard and is unreachable. -/
def handleToolChunk (historyEntry : HistoryEntry) (toolChunkData : SSEToolCallChunkData) :
    HistoryEntry × List ConsoleLine :=
  let ms0 := historyEntry.values.messages
  let last0 := ms0.getLast?
  -- `lastMessage?.nodeId === toolChunkData.node`
  let sameNode := (last0.bind (·.nodeId)) = some toolChunkData.node
  let (ms1, lastMessage) :=
    match last0 with
    | some lm =>
        if sameNode ∧ lm.type = MsgType.ai then (ms0, lm)
        else (ms0 ++ [newAiMessage toolChunkData.node ""], newAiMessage toolChunkData.node "")
    | none => (ms0 ++ [newAiMessage toolChunkData.node ""], newAiMessage toolChunkData.node "")
  -- `if (!lastMessage.tool_calls) lastMessage.tool_calls = []`
  let tcs := lastMessage.tool_calls.getD []
  let updatedMessage :=
    if truthy toolChunkData.id then
      { lastMessage with
          tool_calls := some (tcs ++
            [{ id := toolChunkData.id.getD ""
               name := toolChunkData.name.getD ""
               args := toolChunkData.args.getD "" }]) }
    else if truthy toolChunkData.args ∧ 0 < tcs.length then
      { lastMessage with tool_calls := some (appendToLastArgs tcs (toolChunkData.args.getD "")) }
    else
      { lastMessage with tool_calls := some tcs }
  ({ historyEntry with values := { messages := updateLast ms1 (fun _ => updatedMessage) } }, [])

/-- `handleToolResult`: append a fresh tool message built from the event. -/
def handleToolResult (historyEntry : HistoryEntry) (toolResultData : SSEToolResultData) :
    HistoryEntry :=
  let newToolMessage : Message :=
    { type := MsgType.tool
      content := toolResultData.content.getD ""
      tool_call_id := some (toolResultData.tool_call_id.getD "")
      name := toolResultData.tool_name
      nodeId := some toolResultData.node
      is_error := toolResultData.is_error }
  { historyEntry with
      values := { messages := historyEntry.values.messages ++ [newToolMessage] } }

/-- Modelled from the spec: the Session Registry (`session.svelte.ts` is not
in the sources; only its call sites are).  Per the spec it tracks the active
session id, per-session UI state, per-session ordered thread lists, and the
set of threads with confirmed backend history. -/
structure SessionRegistry where
  activeSessionId : Option String
  uiSessions : List String
  sessionThreads : List (String × List String)
  threadsWithBackendHistory : List String
deriving DecidableEq, Repr

/-- Append a thread to a session's thread list inside the association list;
idempotent per the spec. -/
def addToSessionAssoc (l : List (String × List String)) (sid tid : String) :
    List (String × List String) :=
  match l with
  | [] => [(sid, [tid])]
  | (k, ts) :: rest =>
      if k = sid then (k, if tid ∈ ts then ts else ts ++ [tid]) :: rest
      else (k, ts) :: addToSessionAssoc rest sid tid

/-- Modelled from the spec: `sessionStore.addThreadToSession` — appends a
thread id to a session's thread list; adding one already present is a no-op. -/
def addThreadToSession (r : SessionRegistry) (sid tid : String) : SessionRegistry :=
  { r with sessionThreads := addToSessionAssoc r.sessionThreads sid tid }

/-- Modelled from the spec: `sessionStore.addThreadIdWithBackendHistory` —
marks a thread id as having server-confirmed history. -/
def addThreadIdWithBackendHistory (r : SessionRegistry) (tid : String) : SessionRegistry :=
  if tid ∈ r.threadsWithBackendHistory then r
  else { r with threadsWithBackendHistory := r.threadsWithBackendHistory ++ [tid] }

/-- The program state the Stream Run Engine mutates: the Thread Cache, the
Session Registry, and the Global Error Slot (`activeStore`, modelled from the
spec as a single nullable message). -/
structure AppState where
  cache : ThreadCache
  registry : SessionRegistry
  globalError : Option String
deriving DecidableEq, Repr

/-- Modelled from the spec: `activeStore.setGlobalError`. -/
def setGlobalError (st : AppState) (msg : String) : AppState :=
  { st with globalError := some msg }

/-- Modelled from the spec: `activeStore.clearGlobalError`. -/
def clearGlobalError (st : AppState) : AppState :=
  { st with globalError := none }

/-- Payload of a `run_start` event. -/
structure SSERunStartData where
  thread_id : String
  initialMessages : List Message
  runConfig : RunConfig
deriving DecidableEq, Repr

/-- `handleRunStartEvent` (non-test mode): merge already-cached messages with
the event's `initialMessages` (dropping event messages whose `(type, content)`
pair already occurs in the cache), write a fresh `streaming` entry, mark the
thread backend-confirmed, and append it to the active session when the
request carried no thread id. -/
def handleRunStartEvent (st : AppState) (startData : SSERunStartData)
    (currentActiveSessionId : String) (threadIdToSend : Option String) :
    AppState × List ConsoleLine :=
  let targetThreadId := startData.thread_id
  let existingEntry := cacheGet st.cache targetThreadId
  let existingHistory := existingEntry.bind (·.history)
  let updatedMessages :=
    match existingHistory with
    | some hist =>
        let existingMessages := hist.values.messages
        let newMessages := startData.initialMessages.filter fun newMsg =>
          ¬ existingMessages.any fun existingMsg =>
            existingMsg.type = newMsg.type ∧ existingMsg.content = newMsg.content
        existingMessages ++ newMessages
    | none => startData.initialMessages
  let newCacheEntry : ThreadCacheData :=
    { history := some
        { checkpoint_id := (existingHistory.map (·.checkpoint_id)).getD ""
          thread_id := targetThreadId
          values := { messages := updatedMessages }
          runConfig := startData.runConfig }
      status := ThreadStatus.streaming
      error := none }
  let st1 :=
    { st with
        cache := setEntry st.cache targetThreadId newCacheEntry
        registry := addThreadIdWithBackendHistory st.registry targetThreadId }
  match threadIdToSend with
  | none =>
      ({ st1 with registry := addThreadToSession st1.registry currentActiveSessionId targetThreadId },
       [ConsoleLine.info ("Received run_start for new thread ID: " ++ targetThreadId ++
          " for session " ++ currentActiveSessionId)])
  | some tid =>
      if tid ≠ targetThreadId then
        (st1, [ConsoleLine.warn ("run_start thread ID " ++ targetThreadId ++
          " differs from requested thread ID " ++ tid)])
      else (st1, [])

/-- The three stream-update payload shapes routed to `handleStreamUpdateEvent`. -/
inductive StreamEventData
  | chunkD (d : SSEChunkData)
  | toolChunkD (d : SSEToolCallChunkData)
  | toolResultD (d : SSEToolResultData)
deriving DecidableEq, Repr

/-- `handleStreamUpdateEvent`: drop the event with a diagnostic when the
target thread has no cache entry, is not `streaming`, carries a truthy error,
or has no history; otherwise apply the matching low-level handler to a copy
of the history and merge it back via `updateEntry`. -/
def handleStreamUpdateEvent (st : AppState) (eventData : StreamEventData)
    (targetThreadId : String) : AppState × List ConsoleLine :=
  match cacheGet st.cache targetThreadId with
  | none =>
      (st, [ConsoleLine.err ("Received event for thread " ++ targetThreadId ++
        ", but no cache entry found. Was run_start missed?")])
  | some currentCacheEntry =>
      if currentCacheEntry.status ≠ ThreadStatus.streaming ∨ truthy currentCacheEntry.error then
        (st, [ConsoleLine.warn ("Ignoring event for thread " ++ targetThreadId ++
          " because stream is not active or has an error.")])
      else
        match currentCacheEntry.history with
        | none =>
            (st, [ConsoleLine.err ("Thread " ++ targetThreadId ++ " has no history to update.")])
        | some hist =>
            let (updatedHistory, lines) :=
              match eventData with
              | StreamEventData.chunkD d => handleChunk hist d
              | StreamEventData.toolChunkD d => handleToolChunk hist d
              | StreamEventData.toolResultD d => (handleToolResult hist d, [])
            ({ st with cache := updateEntry st.cache targetThreadId { history := some (some updatedHistory) } },
             lines)

/-- Payload of an `error` event. -/
structure SSEErrorData where
  node : String
  error : String
deriving DecidableEq, Repr

/-- `handleErrorEvent`: always set the Global Error Slot; when the thread id
is truthy also flip that thread's entry to `error`. -/
def handleErrorEvent (st : AppState) (errorData : SSEErrorData)
    (targetThreadId : Option String) : AppState × List ConsoleLine :=
  let errorMessage := "Backend Error (" ++ errorData.node ++ "): " ++ errorData.error
  let st1 := setGlobalError st errorMessage
  let line := ConsoleLine.err ("SSE Error Event Received: " ++ errorMessage)
  if truthy targetThreadId then
    ({ st1 with
        cache := updateEntry st1.cache (targetThreadId.getD "")
          { status := some ThreadStatus.error, error := some (some errorMessage) } },
     [line])
  else (st1, [line])

/-- Outcome of one `getLatestHistory` attempt, as observed by the `end`
handler: a resolved history, a rejection with a non-abort error message, or a
rejection with an `AbortError` (the passed abort signal fired). -/
inductive FetchOutcome
  | success (h : HistoryEntry)
  | failure (msg : String)
  | aborted
deriving DecidableEq, Repr

/-- The observable steps of `handleEndEvent`, in execution order. -/
inductive EndAction
  | setIdle
  | attempt (retryCount : Nat)
  | applyFinal (h : HistoryEntry)
  | sleep (ms : Nat)
  | reportFailure (msg : String)
deriving DecidableEq, Repr

/-- The `while (retryCount <= MAX_RETRIES && !success)` finalize loop of
`handleEndEvent`, driven by an oracle listing the outcome of each
`getLatestHistory` call (`MAX_RETRIES = 2`).  Each iteration performs one
fetch attempt; a success applies the fetched history and exits; an abort
breaks out silently; a non-abort failure either sleeps 1000 ms and retries
(while `retryCount <= MAX_RETRIES` still holds after the increment) or
reports the failure to the Global Error Slot. -/
def finalizeFrom (retryCount : Nat) (outcomes : List FetchOutcome) : List EndAction :=
  match outcomes with
  | [] => []
  | o :: rest =>
      if retryCount ≤ 2 then
        EndAction.attempt retryCount ::
          (match o with
           | FetchOutcome.success h => [EndAction.applyFinal h]
           | FetchOutcome.aborted => []
           | FetchOutcome.failure m =>
               if retryCount + 1 ≤ 2 then
                 EndAction.sleep 1000 :: finalizeFrom (retryCount + 1) rest
               else [EndAction.reportFailure m])
      else []

/-- The ordered trace of `handleEndEvent`: the thread status is flipped to
`idle` first, before any finalize-fetch attempt resolves, then the retry loop
runs. -/
def handleEndEventTrace (outcomes : List FetchOutcome) : List EndAction :=
  EndAction.setIdle :: finalizeFrom 0 outcomes

/-- State effect of one `handleEndEvent` step on the app state. -/
def applyEndAction (tid : String) (st : AppState) : EndAction → AppState
  | EndAction.setIdle =>
      { st with cache := updateEntry st.cache tid { status := some ThreadStatus.idle } }
  | EndAction.attempt _ => st
  | EndAction.sleep _ => st
  | EndAction.applyFinal h =>
      let finalPatch : ThreadCachePatch :=
        { history := some (some h), status := some ThreadStatus.idle, error := some none }
      { st with cache := updateEntry st.cache tid finalPatch }
  | EndAction.reportFailure m =>
      setGlobalError st ("Failed to fetch final state for thread " ++ tid ++ ": " ++ m)

/-- Run a trace of `end` steps over the state, in order. -/
def runEndActions (tid : String) (st : AppState) : List EndAction → AppState
  | [] => st
  | a :: rest => runEndActions tid (applyEndAction tid st a) rest

/-- Net state effect of `handleEndEvent` with the given fetch oracle. -/
def handleEndEvent (st : AppState) (targetThreadId : String)
    (outcomes : List FetchOutcome) : AppState :=
  runEndActions targetThreadId st (handleEndEventTrace outcomes)

/-- Number of finalize-fetch attempts in a trace. -/
def attemptCount (trace : List EndAction) : Nat :=
  trace.countP fun a => match a with
    | EndAction.attempt _ => true
    | _ => false

/-- A parsed inbound frame payload.  `unknownF s` stands for a frame whose
`type` string `s` is none of the six recognized event types. -/
inductive ParsedFrame
  | runStartF (d : SSERunStartData)
  | chunkF (d : SSEChunkData)
  | toolChunkF (d : SSEToolCallChunkData)
  | toolResultF (d : SSEToolResultData)
  | errorF (d : SSEErrorData)
  | endF
  | unknownF (typeName : String)
deriving DecidableEq, Repr

/-- An inbound frame `{type, data, thread_id?}`. -/
structure SSEFrame where
  payload : ParsedFrame
  thread_id : Option String := none
deriving DecidableEq, Repr

/-- The keys of the `eventHandlers` dispatch table. -/
def knownEventTypes : List String :=
  ["run_start", "chunk", "ai_tool_chunk", "tool_result", "error", "end"]

/-- The `type` string of a frame. -/
def frameTypeName : ParsedFrame → String
  | ParsedFrame.runStartF _ => "run_start"
  | ParsedFrame.chunkF _ => "chunk"
  | ParsedFrame.toolChunkF _ => "ai_tool_chunk"
  | ParsedFrame.toolResultF _ => "tool_result"
  | ParsedFrame.errorF _ => "error"
  | ParsedFrame.endF => "end"
  | ParsedFrame.unknownF s => s

/-- JavaScript `a || b` on a nullable string against a string default. -/
def jsOr (a : Option String) (b : String) : String :=
  if truthy a then a.getD "" else b

set_option linter.unusedVariables false in
/-- The `onmessage` callback of `streamRun`: resolve the target thread id
(event `thread_id` falling back to the request's), reject non-`error` frames
without a usable thread id, look the event type up in the dispatch table
(unknown types only produce a console warning), and run the matching handler.

`signalAborted` is the state of the cancellation handle's abort signal at
delivery time; the source callback has it in scope (via the controller) but
never consults it before mutating, so this embedding threads it through
unused.  The `end` handler is started without awaiting; its net state effect
is folded in here given its fetch oracle `endFetchOutcomes`, while its
internal ordering is modelled by `handleEndEventTrace`. -/
def processMessage (st : AppState) (fr : SSEFrame) (isTestMode : Bool)
    (currentActiveSessionId : Option String) (threadIdToSend : Option String)
    (signalAborted : Bool) (endFetchOutcomes : List FetchOutcome) :
    AppState × List ConsoleLine :=
  let eventType := frameTypeName fr.payload
  let targetThreadId := if truthy fr.thread_id then fr.thread_id else threadIdToSend
  if ¬ truthy targetThreadId ∧ eventType ≠ "error" then
    (setGlobalError st ("System Error: Event " ++ eventType ++ " missing thread_id."),
     [ConsoleLine.err ("SSE event type " ++ eventType ++
        " received without a usable thread_id. Cannot process.")])
  else
    match fr.payload with
    | ParsedFrame.unknownF s =>
        (st, [ConsoleLine.warn ("Unhandled SSE event type: " ++ s)])
    | ParsedFrame.runStartF d =>
        if isTestMode then
          let tid := jsOr targetThreadId "test-thread"
          let newCacheEntry : ThreadCacheData :=
            { history := some
                { checkpoint_id := "test-checkpoint"
                  thread_id := tid
                  values := { messages := d.initialMessages }
                  runConfig := d.runConfig }
              status := ThreadStatus.streaming
              error := none }
          ({ st with cache := setEntry st.cache tid newCacheEntry }, [])
        else handleRunStartEvent st d (currentActiveSessionId.getD "") threadIdToSend
    | ParsedFrame.chunkF d =>
        if truthy targetThreadId then
          handleStreamUpdateEvent st (StreamEventData.chunkD d) (jsOr targetThreadId "")
        else
          (setGlobalError st ("System Error: Cannot process " ++ eventType ++ " without thread ID."),
           [ConsoleLine.err ("Cannot process " ++ eventType ++ " without targetThreadId.")])
    | ParsedFrame.toolChunkF d =>
        if truthy targetThreadId then
          handleStreamUpdateEvent st (StreamEventData.toolChunkD d) (jsOr targetThreadId "")
        else
          (setGlobalError st ("System Error: Cannot process " ++ eventType ++ " without thread ID."),
           [ConsoleLine.err ("Cannot process " ++ eventType ++ " without targetThreadId.")])
    | ParsedFrame.toolResultF d =>
        if truthy targetThreadId then
          handleStreamUpdateEvent st (StreamEventData.toolResultD d) (jsOr targetThreadId "")
        else
          (setGlobalError st ("System Error: Cannot process " ++ eventType ++ " without thread ID."),
           [ConsoleLine.err ("Cannot process " ++ eventType ++ " without targetThreadId.")])
    | ParsedFrame.errorF d => handleErrorEvent st d targetThreadId
    | ParsedFrame.endF =>
        if truthy targetThreadId then
          (handleEndEvent st (jsOr targetThreadId "") endFetchOutcomes, [])
        else
          (setGlobalError st "System Error: Cannot process end without thread ID.",
           [ConsoleLine.err "Cannot process end without targetThreadId."])

/-- Result of the synchronous prefix of `streamRun`, up to the point where
either the precondition check fails or the network call is issued. -/
structure StreamRunInit where
  state : AppState
  aborted : Bool
  networkCalled : Bool
  currentActiveSessionId : Option String
deriving DecidableEq, Repr

/-- The part of `streamRun` that runs before any network activity: clear the
Global Error Slot, create the abort controller, and in non-test mode validate
that an active session is selected and that its UI state exists; on a failed
check record a global error, abort the controller, and return it with no
network call made. -/
def streamRunStart (st : AppState) (isTestMode : Bool) : StreamRunInit :=
  let st1 := clearGlobalError st
  if isTestMode then
    { state := st1, aborted := false, networkCalled := true, currentActiveSessionId := none }
  else if ¬ truthy st1.registry.activeSessionId then
    { state := setGlobalError st1 "Cannot start run: No active session selected."
      aborted := true
      networkCalled := false
      currentActiveSessionId := st1.registry.activeSessionId }
  else
    let sid := st1.registry.activeSessionId.getD ""
    if sid ∈ st1.registry.uiSessions then
      { state := st1, aborted := false, networkCalled := true, currentActiveSessionId := some sid }
    else
      { state := setGlobalError st1
          ("Cannot start run: Active session state not found for ID " ++ sid ++ ".")
        aborted := true
        networkCalled := false
        currentActiveSessionId := some sid }

/-- Observable milestones of one `streamRun` invocation, in the order the
source executes them. -/
inductive RunAction
  | clearGlobalErrStep
  | createController
  | precondFailReturn
  | openConnection
  | deliverFrame (f : SSEFrame)
  | streamSettled
  | returnController
deriving DecidableEq, Repr

/-- The execution-order trace of one `streamRun` invocation that receives the
given frames.  The source writes `await fetchEventSource(...)` and only then
`return controller`; the promise returned by `fetchEventSource` settles when
the connection has closed (after `onclose`), so on every path that opens a
connection the `returnController` step runs after `streamSettled` — the
caller obtains the abort controller only once the SSE exchange is over.  On a
failed precondition check the (already aborted) controller is returned
without opening a connection. -/
def streamRunTrace (st : AppState) (isTestMode : Bool) (frames : List SSEFrame) :
    List RunAction :=
  let init := streamRunStart st isTestMode
  if init.aborted then
    [RunAction.clearGlobalErrStep, RunAction.createController,
     RunAction.precondFailReturn, RunAction.returnController]
  else
    [RunAction.clearGlobalErrStep, RunAction.createController, RunAction.openConnection]
      ++ frames.map RunAction.deliverFrame
      ++ [RunAction.streamSettled, RunAction.returnController]

/-! ## Shared helper lemmas -/

theorem cacheGet_cacheSet (c : ThreadCache) (k : String) (v : ThreadCacheData) :
    cacheGet (cacheSet c k v) k = some v := by
  induction c with
  | nil => simp [cacheSet, cacheGet]
  | cons p rest ih =>
      obtain ⟨k', v'⟩ := p
      by_cases h : k' = k
      · simp [cacheSet, cacheGet, h]
      · simp [cacheSet, cacheGet, h, ih]

theorem cacheGet_updateEntry_self (c : ThreadCache) (k : String) (p : ThreadCachePatch)
    (e : ThreadCacheData) (hk : k ≠ "") (hget : cacheGet c k = some e) :
    cacheGet (updateEntry c k p) k = some (applyPatch e p) := by
  unfold updateEntry
  rw [if_neg hk, hget]
  exact cacheGet_cacheSet c k (applyPatch e p)

theorem cacheGet_updateEntry_isSome (c : ThreadCache) (k : String) (p : ThreadCachePatch)
    (hk : k ≠ "") :
    ∃ e, cacheGet c k = some e ∧ cacheGet (updateEntry c k p) k = some (applyPatch e p) ∨
      cacheGet c k = none ∧ cacheGet (updateEntry c k p) k = some (applyPatch defaultEntry p) := by
  unfold updateEntry
  rw [if_neg hk]
  cases hget : cacheGet c k with
  | none => exact ⟨defaultEntry, Or.inr ⟨rfl, cacheGet_cacheSet c k _⟩⟩
  | some e => exact ⟨e, Or.inl ⟨rfl, cacheGet_cacheSet c k _⟩⟩

theorem updateLast_concat (l : List Message) (a : Message) (f : Message → Message) :
    updateLast (l ++ [a]) f = l ++ [f a] := by
  induction l with
  | nil => rfl
  | cons x xs ih =>
      cases xs with
      | nil => rfl
      | cons y ys => exact congrArg (List.cons x) ih

/-- An empty session registry, for concrete counterexample states. -/
def emptyRegistry : SessionRegistry :=
  { activeSessionId := none, uiSessions := [], sessionThreads := [], threadsWithBackendHistory := [] }

/-! ## Claim C1 -/

/-- A concrete starting state for a test-mode invocation. -/
def c1State : AppState := { cache := [], registry := emptyRegistry, globalError := none }

/-- Claim C1: `streamRun` is claimed to return its cancellation handle before
the SSE exchange completes.  In the source the handle is returned only after
`await fetchEventSource(...)` settles, i.e. after the connection has closed:
on the concrete invocation `streamRun(input, cfg, null, true)` whose stream
delivers no frames, the `returnController` milestone comes strictly after
`streamSettled` in the execution trace. -/
theorem claim_C1_bug :
    streamRunTrace c1State true [] =
      [RunAction.clearGlobalErrStep, RunAction.createController, RunAction.openConnection,
       RunAction.streamSettled, RunAction.returnController] ∧
    List.indexOf RunAction.streamSettled (streamRunTrace c1State true []) <
      List.indexOf RunAction.returnController (streamRunTrace c1State true []) := by
  constructor <;> decide

/-! ## Claim C2 -/

/-- History fixture for the post-abort frame delivery counterexample. -/
def c2Hist : HistoryEntry :=
  { checkpoint_id := "cp", thread_id := "T1", values := { messages := [] },
    runConfig := { payload := "cfg" } }

/-- A state with thread `T1` streaming and error-free. -/
def c2State : AppState :=
  { cache := [("T1", { history := some c2Hist, status := ThreadStatus.streaming, error := none })],
    registry := emptyRegistry, globalError := none }

/-- A `chunk` frame for `T1`. -/
def c2Frame : SSEFrame :=
  { payload := ParsedFrame.chunkF { node := "n", content := "y" }, thread_id := some "T1" }

/-- Claim C2 counterexample: a chunk frame delivered while the abort signal is
already set (`signalAborted = true`) still mutates the Thread Cache — the
`onmessage` path performs no abort check before mutating. -/
theorem claim_C2_counterexample :
    (processMessage c2State c2Frame false none none true []).1.cache ≠ c2State.cache := by
  decide

/-- Claim C2 (amended): frame processing is entirely independent of the abort
signal's state — a frame delivered after abort is processed exactly as one
delivered before, so suppression of post-abort mutation rests on the
transport delivering no further frames, not on a signal check.  The abort
signal is honoured only inside the `end` handler's finalize-fetch loop, where
an `AbortError` stops the retries immediately (and, per `applyEndAction`,
reports nothing). -/
theorem claim_C2_amended (st : AppState) (fr : SSEFrame) (itm : Bool)
    (sid tts : Option String) (outs : List FetchOutcome) :
    processMessage st fr itm sid tts true outs = processMessage st fr itm sid tts false outs ∧
    ∀ n rest, finalizeFrom n (FetchOutcome.aborted :: rest) =
      if n ≤ 2 then [EndAction.attempt n] else [] := by
  exact ⟨rfl, fun n rest => rfl⟩

/-! ## Claim C3 -/

/-- History whose last message is an AI message of node `n` with an empty
tool-call list. -/
def c3Hist : HistoryEntry :=
  { checkpoint_id := "cp", thread_id := "T1",
    values := { messages := [newAiMessage "n" "hello"] }, runConfig := { payload := "cfg" } }

/-- An `ai_tool_chunk` continuation: no id, only args. -/
def c3Event : SSEToolCallChunkData := { node := "n", id := none, name := none, args := some "xyz" }

/-- A state with thread `T1` streaming over `c3Hist`. -/
def c3State : AppState :=
  { cache := [("T1", { history := some c3Hist, status := ThreadStatus.streaming, error := none })],
    registry := emptyRegistry, globalError := none }

/-- Claim C3: an `ai_tool_chunk` carrying only `args` while the last AI
message has an empty tool-call list is required to surface a diagnostic and
set the Global Error Slot.  Evaluating the source at exactly that input shows
the event is silently swallowed instead: the history is unchanged, no console
line is emitted, and neither the cache value nor the Global Error Slot moves
(the source's diagnostic for this case sits behind a `tool_calls.length > 0`
guard and is unreachable). -/
theorem claim_C3_bug :
    handleToolChunk c3Hist c3Event = (c3Hist, []) ∧
    handleStreamUpdateEvent c3State (StreamEventData.toolChunkD c3Event) "T1" = (c3State, []) := by
  constructor <;> decide

/-! ## Claim C8 -/

/-- Claim C8 counterexample: starting from an empty cache, `setError` followed
by `clearError` — both public Thread Cache operations — reaches an entry whose
status is `error` while its error field is null, contradicting the claimed
iff. -/
theorem claim_C8_counterexample :
    ∃ e : ThreadCacheData,
      cacheGet (clearError (setError ([] : ThreadCache) "T1" "boom") "T1") "T1" = some e ∧
      e.status = ThreadStatus.error ∧ e.error = none := by
  exact ⟨{ history := none, status := ThreadStatus.error, error := none }, by decide, rfl, rfl⟩

/-- Claim C8 (amended): `setError` does establish an entry with status
`error` and the given non-null message, but `clearError` merely nulls the
error field of the existing entry and leaves its status (and history)
untouched, so a null error field does not imply a non-`error` status and the
claimed iff fails. -/
theorem claim_C8_amended (c : ThreadCache) (tid msg : String) (e : ThreadCacheData)
    (htid : tid ≠ "") (hget : cacheGet c tid = some e) :
    (∃ e', cacheGet (setError c tid msg) tid = some e' ∧
        e'.status = ThreadStatus.error ∧ e'.error = some msg) ∧
    cacheGet (clearError c tid) tid =
      some { history := e.history, status := e.status, error := none } := by
  constructor
  · unfold setError
    rw [cacheGet_updateEntry_self c tid _ e htid hget]
    exact ⟨_, rfl, rfl, rfl⟩
  · unfold clearError
    rw [cacheGet_updateEntry_self c tid _ e htid hget]
    rfl

/-- A one-entry cache for the C8 witness. -/
def c8WitnessCache : ThreadCache :=
  [("T1", { history := none, status := ThreadStatus.idle, error := none })]

/-- Witness for the amended C8 theorem at a concrete cache. -/
theorem claim_C8_witness :
    (∃ e', cacheGet (setError c8WitnessCache "T1" "boom") "T1" = some e' ∧
        e'.status = ThreadStatus.error ∧ e'.error = some "boom") ∧
    cacheGet (clearError c8WitnessCache "T1") "T1" =
      some { history := none, status := ThreadStatus.idle, error := none } :=
  claim_C8_amended c8WitnessCache "T1" "boom"
    { history := none, status := ThreadStatus.idle, error := none } (by decide) (by decide)

/-! ## Claim C9 -/

/-- Claim C9: in non-test mode, when no active session is selected (or it is
falsy) or the active session has no UI state, `streamRun` aborts before any
network activity: the returned handle is already cancelled, no network call
is made, the Thread Cache and Session Registry are untouched, and a global
error is recorded. -/
theorem claim_C9 (st : AppState)
    (h : ¬ truthy st.registry.activeSessionId = true ∨
         ∃ sid, st.registry.activeSessionId = some sid ∧ sid ∉ st.registry.uiSessions) :
    (streamRunStart st false).aborted = true ∧
    (streamRunStart st false).networkCalled = false ∧
    (streamRunStart st false).state.cache = st.cache ∧
    (streamRunStart st false).state.registry = st.registry ∧
    (streamRunStart st false).state.globalError.isSome = true := by
  by_cases htr : truthy st.registry.activeSessionId = true
  · rcases h with h1 | ⟨sid, hsid, hnot⟩
    · exact absurd htr h1
    · have hgd : st.registry.activeSessionId.getD "" = sid := by rw [hsid]; rfl
      simp only [streamRunStart, clearGlobalError, setGlobalError, Bool.false_eq_true,
        if_false, htr, if_true, hgd]
      rw [if_neg hnot]
      exact ⟨rfl, rfl, rfl, rfl, rfl⟩
  · simp only [streamRunStart, clearGlobalError, setGlobalError, Bool.false_eq_true,
      if_false, htr]
    exact ⟨rfl, rfl, rfl, rfl, rfl⟩

/-- A state whose registry has no active session, for the C9 witness. -/
def c9State : AppState := { cache := [], registry := emptyRegistry, globalError := some "old" }

/-- Witness for C9 at a concrete state with no active session. -/
theorem claim_C9_witness :
    (streamRunStart c9State false).aborted = true ∧
    (streamRunStart c9State false).networkCalled = false ∧
    (streamRunStart c9State false).state.cache = c9State.cache ∧
    (streamRunStart c9State false).state.registry = c9State.registry ∧
    (streamRunStart c9State false).state.globalError.isSome = true :=
  claim_C9 c9State (Or.inl (by decide))

/-! ## Claim C10 -/

/-- Claim C10: an inbound frame with a resolvable thread id whose type is
none of the six recognized event types is a complete no-op on program state:
the returning state is exactly the incoming one (Thread Cache, Session
Registry and Global Error Slot untouched) and the only output is a console
warning. -/
theorem claim_C10 (st : AppState) (s : String) (etid tts sid : Option String)
    (itm sab : Bool) (outs : List FetchOutcome)
    (_hunknown : s ∉ knownEventTypes)
    (hresolvable : truthy (if truthy etid then etid else tts) = true) :
    processMessage st { payload := ParsedFrame.unknownF s, thread_id := etid } itm sid tts sab outs =
      (st, [ConsoleLine.warn ("Unhandled SSE event type: " ++ s)]) := by
  unfold processMessage
  rw [if_neg]
  intro hcontra
  exact hcontra.1 hresolvable

/-- Witness for C10: an `unrecognized` frame with an explicit thread id on a
concrete state. -/
theorem claim_C10_witness :
    processMessage c1State { payload := ParsedFrame.unknownF "custom_evt", thread_id := some "T1" }
        false none none false [] =
      (c1State, [ConsoleLine.warn ("Unhandled SSE event type: " ++ "custom_evt")]) :=
  claim_C10 c1State "custom_evt" (some "T1") none none false false [] (by decide) (by decide)

/-! ## Claim C5 -/

/-- The merge result as the specification words it: the cached messages
followed by exactly those event messages for which no cached message has an
identical `(type, content)` pair.  Stated independently of the source to be
compared against `handleRunStartEvent`. -/
def specMergedMessages (cached incoming : List Message) : List Message :=
  cached ++ incoming.filter fun m =>
    decide (¬ ∃ em ∈ cached, em.type = m.type ∧ em.content = m.content)

/-- Claim C5: on `run_start` (non-test mode) over an already-cached message
list, the merged list is exactly the cached messages followed by those event
messages with no identically-`(type, content)`-paired cached counterpart; a
message the cache already has is not inserted again. -/
theorem claim_C5 (st : AppState) (d : SSERunStartData) (sid : String)
    (tts : Option String) (entry : ThreadCacheData) (hist : HistoryEntry)
    (htid : d.thread_id ≠ "")
    (hget : cacheGet st.cache d.thread_id = some entry)
    (hhist : entry.history = some hist) :
    ∃ e h, cacheGet (handleRunStartEvent st d sid tts).1.cache d.thread_id = some e ∧
      e.history = some h ∧
      h.values.messages = specMergedMessages hist.values.messages d.initialMessages ∧
      e.status = ThreadStatus.streaming ∧ e.error = none := by
  have hset : ∀ v, cacheGet (setEntry st.cache d.thread_id v) d.thread_id = some v := by
    intro v
    unfold setEntry
    rw [if_neg htid]
    exact cacheGet_cacheSet _ _ _
  have hfilter :
      (d.initialMessages.filter fun newMsg =>
          ¬ hist.values.messages.any fun existingMsg =>
            existingMsg.type = newMsg.type ∧ existingMsg.content = newMsg.content)
        = d.initialMessages.filter fun m =>
            decide (¬ ∃ em ∈ hist.values.messages, em.type = m.type ∧ em.content = m.content) := by
    apply List.filter_congr
    intro a _
    simp [List.any_eq_true]
  have hmain : (handleRunStartEvent st d sid tts).1.cache
      = setEntry st.cache d.thread_id
          { history := some
              { checkpoint_id := hist.checkpoint_id
                thread_id := d.thread_id
                values := { messages := specMergedMessages hist.values.messages d.initialMessages }
                runConfig := d.runConfig }
            status := ThreadStatus.streaming
            error := none } := by
    unfold handleRunStartEvent
    simp only [hget, Option.some_bind, hhist, Option.map_some', Option.getD_some]
    cases tts with
    | none =>
        unfold specMergedMessages
        rw [hfilter]
    | some tid =>
        dsimp only
        by_cases hne : tid ≠ d.thread_id
        · rw [if_pos hne]
          unfold specMergedMessages
          rw [hfilter]
        · rw [if_neg hne]
          unfold specMergedMessages
          rw [hfilter]
  rw [hmain, hset]
  exact ⟨_, _, rfl, rfl, rfl, rfl, rfl⟩

/-- Cached history for the C5 witness: one human message. -/
def c5Hist : HistoryEntry :=
  { checkpoint_id := "cp", thread_id := "T1",
    values := { messages := [{ type := MsgType.human, content := "hi" }] },
    runConfig := { payload := "cfg" } }

/-- State caching `c5Hist` for thread `T1`. -/
def c5State : AppState :=
  { cache := [("T1", { history := some c5Hist, status := ThreadStatus.idle, error := none })],
    registry := emptyRegistry, globalError := none }

/-- A `run_start` whose `initialMessages` repeat the cached human message and
add a fresh AI message. -/
def c5Start : SSERunStartData :=
  { thread_id := "T1"
    initialMessages := [{ type := MsgType.human, content := "hi" },
                        { type := MsgType.ai, content := "yo" }]
    runConfig := { payload := "cfg" } }

/-- Witness for C5 at a concrete state with a duplicated initial message. -/
theorem claim_C5_witness :
    ∃ e h, cacheGet (handleRunStartEvent c5State c5Start "S1" (some "T1")).1.cache "T1" = some e ∧
      e.history = some h ∧
      h.values.messages = specMergedMessages c5Hist.values.messages c5Start.initialMessages ∧
      e.status = ThreadStatus.streaming ∧ e.error = none :=
  claim_C5 c5State c5Start "S1" (some "T1")
    { history := some c5Hist, status := ThreadStatus.idle, error := none } c5Hist
    (by decide) (by decide) rfl

/-! ## Claim C6 -/

/-- History fixture for the C6 counterexample. -/
def c6Hist : HistoryEntry :=
  { checkpoint_id := "cp", thread_id := "T1", values := { messages := [] },
    runConfig := { payload := "cfg" } }

/-- A state whose `T1` entry is streaming with a non-null but *empty*
error string. -/
def c6State : AppState :=
  { cache := [("T1", { history := some c6Hist, status := ThreadStatus.streaming, error := some "" })],
    registry := emptyRegistry, globalError := none }

/-- Claim C6 counterexample: the drop rule tests JavaScript truthiness, not
nullness.  For a streaming entry whose error field holds the non-null empty
string, a `chunk` event is *processed*: the cache changes and no diagnostic
is emitted — contradicting the claim for entries with non-null error. -/
theorem claim_C6_counterexample :
    (∃ e, cacheGet c6State.cache "T1" = some e ∧ e.error ≠ none) ∧
    (handleStreamUpdateEvent c6State (StreamEventData.chunkD { node := "n", content := "y" }) "T1").1.cache
      ≠ c6State.cache ∧
    (handleStreamUpdateEvent c6State (StreamEventData.chunkD { node := "n", content := "y" }) "T1").2
      = [] := by
  refine ⟨⟨{ history := some c6Hist, status := ThreadStatus.streaming, error := some "" },
    by decide, by decide⟩, by decide, by decide⟩

/-- Claim C6 (amended): for a `chunk`/`ai_tool_chunk`/`tool_result` event
whose target thread has no cache entry, or an entry that is not streaming, or
an entry with a truthy (non-null *and non-empty*) error, processing leaves
the whole program state unchanged and emits a diagnostic. -/
theorem claim_C6_amended (st : AppState) (ev : StreamEventData) (tid : String)
    (h : cacheGet st.cache tid = none ∨
         ∃ e, cacheGet st.cache tid = some e ∧
           (e.status ≠ ThreadStatus.streaming ∨ truthy e.error = true)) :
    (handleStreamUpdateEvent st ev tid).1 = st ∧ (handleStreamUpdateEvent st ev tid).2 ≠ [] := by
  rcases h with hnone | ⟨e, hget, hcond⟩
  · unfold handleStreamUpdateEvent
    rw [hnone]
    exact ⟨rfl, by simp⟩
  · unfold handleStreamUpdateEvent
    simp only [hget]
    rw [if_pos hcond]
    exact ⟨rfl, by simp⟩

/-- A state whose `T1` entry is idle, for the C6 witness. -/
def c6WitnessState : AppState :=
  { cache := [("T1", { history := none, status := ThreadStatus.idle, error := none })],
    registry := emptyRegistry, globalError := none }

/-- Witness for the amended C6 theorem: a chunk for an idle thread is dropped
with a diagnostic. -/
theorem claim_C6_witness :
    (handleStreamUpdateEvent c6WitnessState (StreamEventData.chunkD { node := "n", content := "y" }) "T1").1
      = c6WitnessState ∧
    (handleStreamUpdateEvent c6WitnessState (StreamEventData.chunkD { node := "n", content := "y" }) "T1").2
      ≠ [] :=
  claim_C6_amended c6WitnessState (StreamEventData.chunkD { node := "n", content := "y" }) "T1"
    (Or.inr ⟨{ history := none, status := ThreadStatus.idle, error := none },
      by decide, Or.inl (by decide)⟩)

/-! ## Claim C7 -/

theorem attemptCount_finalizeFrom (outs : List FetchOutcome) :
    ∀ k : Nat, attemptCount (finalizeFrom k outs) ≤ 3 - k := by
  induction outs with
  | nil =>
      intro k
      simp [finalizeFrom, attemptCount]
  | cons o rest ih =>
      intro k
      by_cases hk : k ≤ 2
      · cases o with
        | success h =>
            simp only [finalizeFrom, if_pos hk]
            simp [attemptCount, List.countP_cons]
            omega
        | aborted =>
            simp only [finalizeFrom, if_pos hk]
            simp [attemptCount, List.countP_cons]
            omega
        | failure m =>
            simp only [finalizeFrom, if_pos hk]
            by_cases hk1 : k + 1 ≤ 2
            · rw [if_pos hk1]
              have hrec := ih (k + 1)
              simp [attemptCount, List.countP_cons] at hrec ⊢
              omega
            · rw [if_neg hk1]
              simp [attemptCount, List.countP_cons]
              omega
      · simp only [finalizeFrom, if_neg hk]
        simp [attemptCount]

/-- Claim C7: on an `end` event, (i) the trace starts by flipping the thread
status to `idle`, before any finalize-fetch attempt, and the flip indeed
leaves the entry idle; (ii) at most three fetch attempts are made, with a
1000 ms sleep between consecutive attempts on non-abort failures; (iii) when
all three attempts fail with non-abort errors the last message is reported to
the Global Error Slot while the thread status remains `idle`; and (iv) an
abort outcome stops the retry loop at once, with the Global Error Slot left
exactly as it was and the status still `idle`. -/
theorem claim_C7 (st : AppState) (tid : String) (m1 m2 m3 : String)
    (outs rest : List FetchOutcome) (htid : tid ≠ "") :
    (handleEndEventTrace outs).get? 0 = some EndAction.setIdle ∧
    (∀ i n, (handleEndEventTrace outs).get? i = some (EndAction.attempt n) → 1 ≤ i) ∧
    (∃ e, cacheGet (applyEndAction tid st EndAction.setIdle).cache tid = some e ∧
       e.status = ThreadStatus.idle) ∧
    attemptCount (handleEndEventTrace outs) ≤ 3 ∧
    finalizeFrom 0 (FetchOutcome.failure m1 :: FetchOutcome.failure m2 ::
        FetchOutcome.failure m3 :: rest)
      = [EndAction.attempt 0, EndAction.sleep 1000, EndAction.attempt 1, EndAction.sleep 1000,
         EndAction.attempt 2, EndAction.reportFailure m3] ∧
    (handleEndEvent st tid [FetchOutcome.failure m1, FetchOutcome.failure m2,
        FetchOutcome.failure m3]).globalError
      = some ("Failed to fetch final state for thread " ++ tid ++ ": " ++ m3) ∧
    (∃ e, cacheGet (handleEndEvent st tid [FetchOutcome.failure m1, FetchOutcome.failure m2,
        FetchOutcome.failure m3]).cache tid = some e ∧ e.status = ThreadStatus.idle) ∧
    finalizeFrom 0 [FetchOutcome.aborted] = [EndAction.attempt 0] ∧
    finalizeFrom 0 [FetchOutcome.failure m1, FetchOutcome.aborted]
      = [EndAction.attempt 0, EndAction.sleep 1000, EndAction.attempt 1] ∧
    finalizeFrom 0 [FetchOutcome.failure m1, FetchOutcome.failure m2, FetchOutcome.aborted]
      = [EndAction.attempt 0, EndAction.sleep 1000, EndAction.attempt 1, EndAction.sleep 1000,
         EndAction.attempt 2] ∧
    (handleEndEvent st tid [FetchOutcome.failure m1, FetchOutcome.aborted]).globalError
      = st.globalError ∧
    (∃ e, cacheGet (handleEndEvent st tid [FetchOutcome.failure m1, FetchOutcome.aborted]).cache tid
       = some e ∧ e.status = ThreadStatus.idle) := by
  have hidle : ∀ c : ThreadCache,
      ∃ e, cacheGet (updateEntry c tid { status := some ThreadStatus.idle }) tid = some e ∧
        e.status = ThreadStatus.idle := by
    intro c
    obtain ⟨e, he⟩ := cacheGet_updateEntry_isSome c tid { status := some ThreadStatus.idle } htid
    rcases he with ⟨-, h2⟩ | ⟨-, h2⟩
    · exact ⟨_, h2, rfl⟩
    · exact ⟨_, h2, rfl⟩
  refine ⟨rfl, ?_, hidle st.cache, ?_, rfl, rfl, hidle st.cache, rfl, rfl, rfl, rfl, hidle st.cache⟩
  · intro i n h
    cases i with
    | zero => simp [handleEndEventTrace] at h
    | succ j => omega
  · have hbound := attemptCount_finalizeFrom outs 0
    simp [handleEndEventTrace, attemptCount, List.countP_cons] at hbound ⊢
    omega

/-- Witness for C7 at a concrete state, thread id, error messages and fetch
oracle. -/
theorem claim_C7_witness :
    (handleEndEventTrace ([] : List FetchOutcome)).get? 0 = some EndAction.setIdle ∧
    attemptCount (handleEndEventTrace ([] : List FetchOutcome)) ≤ 3 ∧
    (handleEndEvent c1State "T1" [FetchOutcome.failure "e1", FetchOutcome.aborted]).globalError
      = c1State.globalError := by
  obtain ⟨h1, _, _, h4, _, _, _, _, _, _, h11, _⟩ :=
    claim_C7 c1State "T1" "e1" "e2" "e3" [] [] (by decide)
  exact ⟨h1, h4, h11⟩

/-! ## Claim C4 -/

/-- Deliver a sequence of `chunk` events for one thread, in order. -/
def processChunks (st : AppState) (tid : String) (chunks : List SSEChunkData) : AppState :=
  chunks.foldl (fun s c => (handleStreamUpdateEvent s (StreamEventData.chunkD c) tid).1) st

/-- `handleChunk` on a history whose last message is the accumulating AI
message of the chunk's node: the content is appended in place. -/
theorem handleChunk_continue (h : HistoryEntry) (c : SSEChunkData) (base : List Message)
    (n acc : String) (hmsgs : h.values.messages = base ++ [newAiMessage n acc])
    (hnode : c.node = n) :
    handleChunk h c
      = ({ h with values := { messages := base ++ [newAiMessage n (acc ++ c.content)] } }, []) := by
  unfold handleChunk
  dsimp only
  rw [hmsgs, hnode]
  simp [newAiMessage, List.getLast?_concat, updateLast_concat]

/-- `handleChunk` on a history containing no message of the chunk's node:
a fresh AI message holding the chunk content is appended. -/
theorem handleChunk_fresh (h : HistoryEntry) (c : SSEChunkData) (n : String)
    (hfresh : ∀ m ∈ h.values.messages, m.nodeId ≠ some n) (hnode : c.node = n) :
    handleChunk h c
      = ({ h with values :=
            { messages := h.values.messages ++ [newAiMessage n ("" ++ c.content)] } }, []) := by
  unfold handleChunk
  dsimp only
  have hlast : (h.values.messages.getLast?.bind fun m => m.nodeId) ≠ some c.node := by
    rw [hnode]
    cases hl : h.values.messages.getLast? with
    | none => simp
    | some m =>
        have hm : m ∈ h.values.messages := List.mem_of_mem_getLast? (by rw [hl]; rfl)
        simpa using hfresh m hm
  rw [if_pos hlast, hnode]
  simp [newAiMessage, List.getLast?_concat, updateLast_concat]

/-- A history with its message list replaced. -/
def withMessages (h : HistoryEntry) (msgs : List Message) : HistoryEntry :=
  { h with values := { messages := msgs } }

/-- The cache entry written back by one in-stream update: same status and
error, history carrying the new message list. -/
def chunkStepEntry (e : ThreadCacheData) (h : HistoryEntry) (msgs : List Message) :
    ThreadCacheData :=
  { history := some (withMessages h msgs), status := e.status, error := e.error }

/-- The whole-state result of one in-stream update writing back `msgs`. -/
def chunkStepState (st : AppState) (tid : String) (e : ThreadCacheData) (h : HistoryEntry)
    (msgs : List Message) : AppState :=
  { st with cache := cacheSet st.cache tid (chunkStepEntry e h msgs) }

/-- One streamed chunk, applied to a streaming error-free entry whose last
message is the accumulating AI message: the whole-state effect. -/
theorem chunk_step (st : AppState) (tid n acc : String) (e : ThreadCacheData)
    (h : HistoryEntry) (base : List Message) (c : SSEChunkData)
    (htid : tid ≠ "") (hget : cacheGet st.cache tid = some e)
    (hstatus : e.status = ThreadStatus.streaming) (herr : truthy e.error = false)
    (hhist : e.history = some h)
    (hmsgs : h.values.messages = base ++ [newAiMessage n acc])
    (hnode : c.node = n) :
    (handleStreamUpdateEvent st (StreamEventData.chunkD c) tid).1
      = chunkStepState st tid e h (base ++ [newAiMessage n (acc ++ c.content)]) := by
  unfold handleStreamUpdateEvent chunkStepState chunkStepEntry withMessages
  simp only [hget]
  rw [if_neg (by rw [hstatus, herr]; simp)]
  simp only [hhist]
  rw [handleChunk_continue h c base n acc hmsgs hnode]
  unfold updateEntry
  rw [if_neg htid, hget]
  rfl

/-- The accumulation loop: once the AI message for node `n` is the last
message, every further chunk of node `n` appends to its content and the
entry stays streaming with its error unchanged. -/
theorem processChunks_loop (tid n : String) (htid : tid ≠ "") :
    ∀ (chunks : List SSEChunkData), (∀ c ∈ chunks, c.node = n) →
    ∀ (st : AppState) (e : ThreadCacheData) (h : HistoryEntry) (base : List Message)
      (acc : String),
      cacheGet st.cache tid = some e → e.status = ThreadStatus.streaming →
      truthy e.error = false → e.history = some h →
      h.values.messages = base ++ [newAiMessage n acc] →
      ∃ e' h', cacheGet (processChunks st tid chunks).cache tid = some e' ∧
        e'.status = ThreadStatus.streaming ∧ e'.error = e.error ∧ e'.history = some h' ∧
        h'.values.messages
          = base ++ [newAiMessage n (chunks.foldl (fun a c => a ++ c.content) acc)] := by
  intro chunks
  induction chunks with
  | nil =>
      intro _ st e h base acc hget hstatus herr hhist hmsgs
      exact ⟨e, h, hget, hstatus, rfl, hhist, hmsgs⟩
  | cons c cs ih =>
      intro hnode st e h base acc hget hstatus herr hhist hmsgs
      have hstep := chunk_step st tid n acc e h base c htid hget hstatus herr hhist hmsgs
        (hnode c (List.mem_cons_self c cs))
      have hrun : processChunks st tid (c :: cs)
          = processChunks ((handleStreamUpdateEvent st (StreamEventData.chunkD c) tid).1) tid cs := rfl
      rw [hrun, hstep]
      have hres := ih (fun c' hc' => hnode c' (List.mem_cons_of_mem c hc'))
        (chunkStepState st tid e h (base ++ [newAiMessage n (acc ++ c.content)]))
        (chunkStepEntry e h (base ++ [newAiMessage n (acc ++ c.content)]))
        (withMessages h (base ++ [newAiMessage n (acc ++ c.content)]))
        base (acc ++ c.content)
        (cacheGet_cacheSet st.cache tid _) hstatus herr rfl rfl
      obtain ⟨e', h', hres1, hres2, hres3, hres4, hres5⟩ := hres
      exact ⟨e', h', hres1, hres2, hres3, hres4, hres5⟩

/-- Claim C4 (amended): a nonempty sequence of `chunk` events sharing one
node, delivered to a streaming error-free thread whose history holds no
message of that node yet, yields exactly the original history followed by
one new AI message for that node, whose content is the concatenation of all
chunk contents in arrival order — in particular exactly one AI message of
that node exists afterwards. -/
theorem claim_C4_amended (st : AppState) (tid n : String) (entry : ThreadCacheData)
    (hist : HistoryEntry) (chunks : List SSEChunkData)
    (htid : tid ≠ "")
    (hget : cacheGet st.cache tid = some entry)
    (hstatus : entry.status = ThreadStatus.streaming)
    (herr : truthy entry.error = false)
    (hhist : entry.history = some hist)
    (hfresh : ∀ m ∈ hist.values.messages, m.nodeId ≠ some n)
    (hne : chunks ≠ [])
    (hnode : ∀ c ∈ chunks, c.node = n) :
    ∃ e h, cacheGet (processChunks st tid chunks).cache tid = some e ∧
      e.status = ThreadStatus.streaming ∧
      e.history = some h ∧
      h.values.messages
        = hist.values.messages ++
            [newAiMessage n (chunks.foldl (fun a c => a ++ c.content) "")] ∧
      h.values.messages.countP
          (fun m => m.type = MsgType.ai ∧ m.nodeId = some n) = 1 := by
  match chunks, hne with
  | c :: cs, _ =>
    have hstep0 : (handleStreamUpdateEvent st (StreamEventData.chunkD c) tid).1
        = chunkStepState st tid entry hist
            (hist.values.messages ++ [newAiMessage n ("" ++ c.content)]) := by
      unfold handleStreamUpdateEvent chunkStepState chunkStepEntry withMessages
      simp only [hget]
      rw [if_neg (by rw [hstatus, herr]; simp)]
      simp only [hhist]
      rw [handleChunk_fresh hist c n hfresh (hnode c (List.mem_cons_self c cs))]
      unfold updateEntry
      rw [if_neg htid, hget]
      rfl
    have hrun : processChunks st tid (c :: cs)
        = processChunks ((handleStreamUpdateEvent st (StreamEventData.chunkD c) tid).1) tid cs := rfl
    have hres := processChunks_loop tid n htid cs
      (fun c' hc' => hnode c' (List.mem_cons_of_mem c hc'))
      (chunkStepState st tid entry hist
        (hist.values.messages ++ [newAiMessage n ("" ++ c.content)]))
      (chunkStepEntry entry hist (hist.values.messages ++ [newAiMessage n ("" ++ c.content)]))
      (withMessages hist (hist.values.messages ++ [newAiMessage n ("" ++ c.content)]))
      hist.values.messages ("" ++ c.content)
      (cacheGet_cacheSet st.cache tid _) hstatus herr rfl rfl
    obtain ⟨e', h', hres1, hres2, hres3, hres4, hres5⟩ := hres
    refine ⟨e', h', ?_, hres2, hres4, ?_, ?_⟩
    · rw [hrun, hstep0]
      exact hres1
    · exact hres5
    · rw [hres5]
      rw [List.countP_append]
      have hzero : hist.values.messages.countP
          (fun m => m.type = MsgType.ai ∧ m.nodeId = some n) = 0 := by
        rw [List.countP_eq_zero]
        intro m hm
        simp only [decide_eq_true_eq]
        intro hcon
        exact hfresh m hm hcon.2
      rw [hzero]
      simp [newAiMessage]

/-- History fixture for the C4 counterexample: the thread already holds an AI
message of node `n` with content `x`. -/
def c4Hist : HistoryEntry :=
  { checkpoint_id := "cp", thread_id := "T1",
    values := { messages := [newAiMessage "n" "x"] }, runConfig := { payload := "cfg" } }

/-- State streaming over `c4Hist`. -/
def c4State : AppState :=
  { cache := [("T1", { history := some c4Hist, status := ThreadStatus.streaming, error := none })],
    registry := emptyRegistry, globalError := none }

/-- The history `c4State` ends up with after the counterexample chunk. -/
def c4ResultHist : HistoryEntry :=
  { checkpoint_id := "cp", thread_id := "T1",
    values := { messages := [newAiMessage "n" "xy"] }, runConfig := { payload := "cfg" } }

/-- The entry `c4State` ends up with after the counterexample chunk. -/
def c4ResultEntry : ThreadCacheData :=
  { history := some c4ResultHist, status := ThreadStatus.streaming, error := none }

/-- Claim C4 counterexample: deliver the single chunk `(node n, content y)`
to a streaming, error-free thread whose history already ends in an AI message
of node `n` with content `x`.  The resulting history holds one AI message of
node `n` whose content is `xy`, not the concatenation `y` of the delivered
chunks — the claim fails for histories already containing the node. -/
theorem claim_C4_counterexample :
    ∃ e h, cacheGet (processChunks c4State "T1" [{ node := "n", content := "y" }]).cache "T1"
        = some e ∧
      e.history = some h ∧
      h.values.messages = [newAiMessage "n" "xy"] ∧
      newAiMessage "n" "xy" ≠ newAiMessage "n" "y" := by
  refine ⟨c4ResultEntry, c4ResultHist, ?_, rfl, rfl, ?_⟩ <;> decide

/-- History fixture for the C4 witness: one human message of another node. -/
def c4WitnessHist : HistoryEntry :=
  { checkpoint_id := "cp", thread_id := "T1",
    values := { messages := [{ type := MsgType.human, content := "hi", nodeId := some "u" }] },
    runConfig := { payload := "cfg" } }

/-- The streaming entry over `c4WitnessHist`. -/
def c4WitnessEntry : ThreadCacheData :=
  { history := some c4WitnessHist, status := ThreadStatus.streaming, error := none }

/-- State streaming over `c4WitnessHist`. -/
def c4WitnessState : AppState :=
  { cache := [("T1", c4WitnessEntry)], registry := emptyRegistry, globalError := none }

/-- Witness for the amended C4 theorem at two concrete chunks. -/
theorem claim_C4_witness :
    ∃ e h, cacheGet (processChunks c4WitnessState "T1"
        [{ node := "n", content := "he" }, { node := "n", content := "llo" }]).cache "T1"
        = some e ∧
      e.status = ThreadStatus.streaming ∧
      e.history = some h ∧
      h.values.messages
        = c4WitnessHist.values.messages ++
            [newAiMessage "n" ([SSEChunkData.mk "n" "he", SSEChunkData.mk "n" "llo"].foldl
              (fun a c => a ++ c.content) "")] ∧
      h.values.messages.countP
          (fun m => m.type = MsgType.ai ∧ m.nodeId = some "n") = 1 :=
  claim_C4_amended c4WitnessState "T1" "n" c4WitnessEntry
    c4WitnessHist [{ node := "n", content := "he" }, { node := "n", content := "llo" }]
    (by decide) rfl rfl rfl rfl (by decide) (by decide) (by decide)

end SuperegoSSE
